import Mathlib

/-
Verification of the trust-score aggregation and disclosure-gating model of the
Platform Analyzer frontend (React/TypeScript single-page app).

Shallow embedding conventions:
  - JavaScript numbers that hold scores are embedded as Int; counters and
    ratings that the code only ever sets to non-negative integers are Nat.
  - JavaScript string falsiness (the empty string is falsy) is embedded
    explicitly as comparison with the empty string.
  - Optional object fields (TypeScript field?) are embedded as Option.
  - React component render output is embedded as a record of what the
    returned JSX tree contains; state updates are explicit state passing.
-/

namespace PlatformAnalyzer

/-! ## Data model (from the TypeScript interfaces in the source) -/

/-- Severity levels of findings, from the Finding interface in
LegitimacyAnalyzer.tsx, App.tsx and JobAnalyzer.tsx
(type field values critical, warning, info). -/
inductive Severity
  | critical
  | warning
  | info
deriving DecidableEq, Repr

/-- Finding interface: a type (severity) and a text. -/
structure Finding where
  type : Severity
  text : String
deriving DecidableEq, Repr

/-- RedFlag interface from JobAnalyzer.tsx: severity, category, text. -/
structure RedFlag where
  type : Severity
  category : String
  text : String
deriving DecidableEq, Repr

/-- WHOISData interface from LegitimacyAnalyzer.tsx. -/
structure WHOISData where
  registrar : String
  owner : String
  email : String
  lastUpdated : String
deriving DecidableEq, Repr

/-- Sentiment record from the AnalysisResult interface. -/
structure Sentiment where
  positive : Int
  neutral : Int
  negative : Int
deriving DecidableEq, Repr

/-- AnalysisResult interface from LegitimacyAnalyzer.tsx (the unnamed source
file that renders the website-analysis results).  Nested records that no
rendered section of the embedded render reads (contentAnalysis, socialData,
ponziCalculation, peopleExperience) are kept as presence flags or omitted
fields are summarized in comments where they do not affect any claim. -/
structure AnalysisResult where
  url : String
  trustScore : Int
  verdict : String
  domainAge : String
  domainRegistered : String
  sslStatus : String
  serverLocation : String
  whoisData : WHOISData
  withdrawalComplaints : Int
  findings : List Finding
  sentiment : Sentiment
  redFlags : List String
  scamProbability : String
  recommendation : String
  aiAnalysis : Option String
deriving DecidableEq, Repr

/-- Authenticated user object (the user state is typed any in the source; the
header only reads user.name and user.email, both possibly absent). -/
structure AuthUser where
  name : Option String
  email : Option String
deriving DecidableEq, Repr

/-! ## Score-to-band mapping (App.tsx lines 153-157 and JobAnalyzer.tsx
lines 186-190 define the identical function) -/

/-- The getScoreColor function, identical in App.tsx and JobAnalyzer.tsx:
score at least 70 gives the green (most legitimate) gradient class, at least
40 the yellow one, anything lower the red one. -/
def getScoreColor (score : Int) : String :=
  if score ≥ 70 then "from-emerald-500 to-green-600"
  else if score ≥ 40 then "from-yellow-500 to-orange-500"
  else "from-red-500 to-rose-600"

/-! ## Rendering of the results section of LegitimacyAnalyzer.tsx -/

/-- What the results JSX subtree of LegitimacyAnalyzer.tsx contains for a
given (user, result) pair: the trust-score card (score, verdict, url) is
rendered unconditionally; the sign-in overlay is rendered exactly when user
is null; the critical banner is rendered when trustScore equals 0; the
findings list is rendered unconditionally (underneath the overlay when the
viewer is unauthenticated); the AI-analysis block is rendered when
result.aiAnalysis is truthy (present and non-empty). -/
structure RenderedPage where
  scoreShown : Int
  verdictShown : String
  urlShown : String
  overlayShown : Bool
  criticalBanner : Bool
  findingsShown : List Finding
  aiAnalysisShown : Option String
  recommendationShown : String
  commentsSectionUrl : String
deriving DecidableEq, Repr

/-- Truthiness of an optional string field in JSX guards such as
result.aiAnalysis and (...): null and the empty string are falsy. -/
def truthyString : Option String → Option String
  | some s => if s = "" then none else some s
  | none => none

/-- The results subtree of the LegitimacyAnalyzer render, as a function of
the user state and the analysis result (source: the JSX under result and
(...) in LegitimacyAnalyzer.tsx, lines 379-627).  The overlay div is
rendered only when user is null, but the gated sections below it (metrics,
findings, AI analysis, recommendation, comments) are inside the same wrapper
and are rendered for every viewer. -/
def renderResults (user : Option AuthUser) (result : AnalysisResult) : RenderedPage :=
  { scoreShown := result.trustScore
    verdictShown := result.verdict
    urlShown := result.url
    overlayShown := user.isNone
    criticalBanner := result.trustScore == 0
    findingsShown := result.findings
    aiAnalysisShown := truthyString result.aiAnalysis
    recommendationShown := result.recommendation
    commentsSectionUrl := result.url }

/-- The component state the gating render reads: the shared user state and
the stored analysis result. -/
structure GateState where
  user : Option AuthUser
  result : AnalysisResult
deriving DecidableEq, Repr

/-- One render pass of the gated results section: React calls the component
as a function of its state; the render body of LegitimacyAnalyzer.tsx
performs no state writes (the setShowAuthModal call sits inside an onClick
handler, which is not executed during rendering), so the pass returns the
page together with the unchanged state. -/
def renderGate (s : GateState) : RenderedPage × GateState :=
  (renderResults s.user s.result, s)

/-! ## DisclosurePolicy (spec section 4.2) -/

/-- Modelled from the spec: the DisclosurePolicy as an input-output filter is
described in spec sections 4.2 and 6 but is not implemented as a function in
the frontend source (the source only has the cosmetic overlay embedded in
renderResults above).  Per the spec, the visible result has the same shape
as the analysis result, with the gated fields optional. -/
structure VisibleResult where
  trustScore : Int
  verdict : String
  url : String
  findings : Option (List Finding)
  redFlags : Option (List RedFlag)
  aiAnalysis : Option String
deriving DecidableEq, Repr

/-- Modelled from the spec: DisclosurePolicy (spec section 4.2).  Score,
verdict and target identifier are never gated; findings, red flags and AI
commentary are present only when the viewer is authenticated. -/
def disclose (authenticated : Bool) (r : VisibleResult) : VisibleResult :=
  { trustScore := r.trustScore
    verdict := r.verdict
    url := r.url
    findings := if authenticated then r.findings else none
    redFlags := if authenticated then r.redFlags else none
    aiAnalysis := if authenticated then r.aiAnalysis else none }

/-! ## ScoreAggregator (spec section 4.1) -/

/-- SignalValue shape from spec section 6: a kind, an optional numeric value,
and an optional severity. -/
structure SignalValue where
  kind : String
  numericValue : Option Int
  severity : Option Severity
deriving DecidableEq, Repr

/-- Modelled from the spec: the fixed baseline score the weighted sum starts
from (spec section 4.1 requires a documented constant; the backend module
holding the real value is excluded from this source set). -/
def baselineScore : Int := 50

/-- Clamp a score into the documented [0, 100] range. -/
def clampScore (x : Int) : Int := max 0 (min 100 x)

/-- Modelled from the spec: the bounded, signed adjustment one signal
contributes (spec section 4.1); a missing numeric value degrades to a
neutral zero contribution. -/
def signalAdjustment (s : SignalValue) : Int :=
  max (-25) (min 25 (s.numericValue.getD 0))

/-- A signal map contains a critical signal when any entry carries
severity critical. -/
def hasCritical (signals : List (String × SignalValue)) : Bool :=
  signals.any (fun p => p.2.severity == some Severity.critical)

/-- The worst verdict category of the website analyzer
(getVerdictColor in App.tsx enumerates Legit, Caution and the scam
fall-through). -/
def worstVerdict : String := "Scam"

/-- Modelled from the spec: the fixed score-to-verdict thresholds of spec
section 4.1 (at least 70 the best verdict, at least 40 the middle one,
otherwise the worst). -/
def scoreToVerdict (score : Int) : String :=
  if score ≥ 70 then "Legit"
  else if score ≥ 40 then "Caution"
  else worstVerdict

/-- Modelled from the spec: ScoreAggregator (spec section 4.1), implemented
in the excluded backend service.  The critical override is an explicit
precedence rule evaluated before the weighted sum: any critical signal
forces the score to the floor; otherwise the clamped baseline-plus-
adjustments sum is used. -/
def aggregateScore (signals : List (String × SignalValue)) : Int :=
  if hasCritical signals then 0
  else clampScore (baselineScore + (signals.map (fun p => signalAdjustment p.2)).sum)

/-- Modelled from the spec: the aggregated (score, verdict) pair. -/
def aggregate (signals : List (String × SignalValue)) : Int × String :=
  let s := aggregateScore signals
  (s, scoreToVerdict s)

/-! ## Job analyzer form submission (JobAnalyzer.tsx) -/

/-- The formData state of JobAnalyzer.tsx (lines 69-75). -/
structure JobFormData where
  job_url : String
  job_description : String
  company_name : String
  salary : String
  recruiter_email : String
deriving DecidableEq, Repr

/-- EmailAnalysis record of the JobAnalysisResult interface. -/
structure EmailAnalysis where
  email : String
  isCorporate : Bool
  domain : String
  provider : String
  risk : String
deriving DecidableEq, Repr

/-- JobAnalysisResult interface of JobAnalyzer.tsx (fields the claims do not
touch are kept at the top level; the remaining nested records are summarized
by their rendered scalar content). -/
structure JobAnalysisResult where
  trustScore : Int
  verdict : String
  riskLevel : String
  recommendation : String
  findings : List Finding
  aiAnalysis : Option String
  emailAnalysis : EmailAnalysis
  redFlags : List RedFlag
  totalRedFlags : Nat
  criticalFlags : Nat
deriving DecidableEq, Repr

/-- The component state analyzeJob reads and writes before any response
arrives (JobAnalyzer.tsx). -/
structure JobState where
  analyzing : Bool
  result : Option JobAnalysisResult
  error : Option String
  analysisSteps : List String
  hasScrolledToResults : Bool
deriving DecidableEq, Repr

/-- The validation error message of analyzeJob (JobAnalyzer.tsx line 133). -/
def jobValidationError : String := "Please provide either a job URL or job description"

/-- The synchronous phase of analyzeJob (JobAnalyzer.tsx lines 131-167): when
both job_url and job_description are empty (falsy), only the error message is
set and the function returns with no request; otherwise the pre-request state
resets are applied and the POST body (the form data) is dispatched.  The
second component is the dispatched request body, none when no HTTP request
is issued. -/
def analyzeJob (fd : JobFormData) (st : JobState) : JobState × Option JobFormData :=
  if fd.job_url = "" ∧ fd.job_description = "" then
    ({ st with error := some jobValidationError }, none)
  else
    ({ analyzing := true
       result := none
       error := none
       analysisSteps := []
       hasScrolledToResults := false }, some fd)

/-! ## Comments section (CommentsSection.tsx, the unnamed source file) -/

/-- The Comment interface of CommentsSection.tsx. -/
structure CommentRecord where
  id : Nat
  user_name : String
  rating : Nat
  experience : String
  comment : String
  was_scammed : Bool
  timestamp : String
  helpful_count : Nat
deriving DecidableEq, Repr

/-- The experience_breakdown record of the stats state. -/
structure ExperienceBreakdown where
  positive : Nat
  neutral : Nat
  negative : Nat
deriving DecidableEq, Repr

/-- The stats state shape of CommentsSection.tsx (lines 21-26). -/
structure CommentStats where
  total_comments : Nat
  average_rating : ℚ
  scam_reports : Nat
  experience_breakdown : ExperienceBreakdown
deriving DecidableEq, Repr

/-- The initial stats state of CommentsSection.tsx (lines 21-26): every
summary value starts at zero before any comments are loaded. -/
def initialStats : CommentStats :=
  { total_comments := 0
    average_rating := 0
    scam_reports := 0
    experience_breakdown := { positive := 0, neutral := 0, negative := 0 } }

/-- Modelled from the spec: CommentAggregator (spec section 4.3), implemented
in the excluded backend service.  average_rating is 0 for the empty comment
set and the arithmetic mean of the ratings otherwise; scam_reports counts the
was_scammed comments; the breakdown counts the comments per recognized
category, dropping unrecognized categories. -/
def commentSummary (cs : List CommentRecord) : CommentStats :=
  { total_comments := cs.length
    average_rating :=
      if cs.length = 0 then 0
      else (cs.map (fun c => (c.rating : ℚ))).sum / (cs.length : ℚ)
    scam_reports := (cs.filter (fun c => c.was_scammed)).length
    experience_breakdown :=
      { positive := (cs.filter (fun c => c.experience == "positive")).length
        neutral := (cs.filter (fun c => c.experience == "neutral")).length
        negative := (cs.filter (fun c => c.experience == "negative")).length } }

/-- The formData state of the comment form (CommentsSection.tsx
lines 28-34). -/
structure CommentFormData where
  user_name : String
  rating : Nat
  experience : String
  comment : String
  was_scammed : Bool
deriving DecidableEq, Repr

/-- The handleSubmit function of CommentsSection.tsx (lines 60-88), reduced
to its request decision: it returns early (no POST) when user_name or
comment is empty (falsy), and issues the POST with the form data as body
otherwise. -/
def handleSubmit (fd : CommentFormData) : Option CommentFormData :=
  if fd.user_name = "" ∨ fd.comment = "" then none
  else some fd

/-- The five star values of the rating buttons (CommentsSection.tsx
line 166 maps over the literal array 1, 2, 3, 4, 5). -/
def ratingStars : List Nat := [1, 2, 3, 4, 5]

/-- The initial rating of the comment form (CommentsSection.tsx line 30,
and the reset after a successful submit at line 75). -/
def initialRating : Nat := 5

/-- The operations that update the rating field of the form state: a click
on one of the five star buttons (setFormData with rating set to that star),
or the form reset after a successful submit (rating back to 5). -/
inductive RatingEvent
  | press (i : Fin ratingStars.length)
  | reset
deriving DecidableEq, Repr

/-- One rating update: a star press replaces the current rating by the
pressed star value; the reset restores the initial rating. -/
def ratingStep (_r : Nat) : RatingEvent → Nat
  | RatingEvent.press i => ratingStars.get i
  | RatingEvent.reset => initialRating

/-- The rating after a sequence of rating updates, starting from the
initial form state. -/
def ratingAfter (events : List RatingEvent) : Nat :=
  events.foldl ratingStep initialRating

/-! ## DynamicStats.tsx: compact number formatting and testimonials -/

/-- The quotient num over den rendered with exactly one decimal digit
(the toFixed(1) calls of the formatCompact fallback, idealized as round half
up on the exact rational value). -/
def toFixed1 (num den : Nat) : String :=
  let scaled := (num * 10 + den / 2) / den
  toString (scaled / 10) ++ "." ++ toString (scaled % 10)

/-- The fallback branch of formatCompact (DynamicStats.tsx lines 51-55),
taken when the Intl formatter of the primary branch throws: values of at
least one million get one decimal and an M suffix, values of at least one
thousand one decimal and a K suffix, smaller values the plain decimal
string.  The stats this function formats are non-negative integers, so the
domain is Nat. -/
def formatCompactFallback (value : Nat) : String :=
  if value ≥ 1000000 then toFixed1 value 1000000 ++ "M"
  else if value ≥ 1000 then toFixed1 value 1000 ++ "K"
  else toString value

/-- Testimonial interface of DynamicStats.tsx. -/
structure Testimonial where
  quote : String
  author : String
  role : Option String
deriving DecidableEq, Repr

/-- The testimonials array of DynamicStats.tsx (lines 26-42). -/
def testimonials : List Testimonial :=
  [ { quote := "Platform Analyzer helped our team avoid a high‑risk vendor in minutes."
      author := "Alex P."
      role := some ("Security Lead") }
  , { quote := "The job offer checker caught subtle red flags I would have missed."
      author := "Maria L."
      role := some ("Job Seeker") }
  , { quote := "We use it before every big investment decision. Huge peace of mind."
      author := "James K."
      role := some ("Retail Investor") } ]

/-- The operations that update the currentTestimonial index: the rotation
timer (DynamicStats.tsx line 127 maps prev to (prev + 1) mod length, skipped
while paused, which leaves the index unchanged) and a click on one of the
dot buttons, whose handlers are produced by mapping over the testimonials
array (lines 272-282), so a click always carries an in-range index. -/
inductive TestimonialEvent
  | tick
  | dotClick (i : Fin testimonials.length)
deriving DecidableEq, Repr

/-- One currentTestimonial update. -/
def testimonialStep (idx : Nat) : TestimonialEvent → Nat
  | TestimonialEvent.tick => (idx + 1) % testimonials.length
  | TestimonialEvent.dotClick i => i

/-- The currentTestimonial index after a sequence of updates, starting from
the initial useState value 0. -/
def testimonialIndexAfter (events : List TestimonialEvent) : Nat :=
  events.foldl testimonialStep 0

/-! ## Concrete sample inputs used by witnesses and counterexamples -/

/-- A concrete analysis result with non-empty gated content (findings and AI
analysis both present). -/
def gatedSample : AnalysisResult :=
  { url := "https://example.com"
    trustScore := 82
    verdict := "Legit"
    domainAge := "5 years"
    domainRegistered := "2020-01-01"
    sslStatus := "Valid SSL certificate"
    serverLocation := "United States"
    whoisData := { registrar := "NameCheap", owner := "Example LLC"
                   email := "admin@example.com", lastUpdated := "2024-06-01" }
    withdrawalComplaints := 0
    findings := [{ type := Severity.info, text := "SSL certificate is valid" }]
    sentiment := { positive := 12, neutral := 3, negative := 1 }
    redFlags := ["unverified testimonials"]
    scamProbability := "Low"
    recommendation := "This platform appears legitimate."
    aiAnalysis := some ("The platform shows consistent trust markers.") }

/-- A concrete signal map containing one critical signal next to an
otherwise favorable signal. -/
def criticalSample : List (String × SignalValue) :=
  [ ("malwareFlag",
      { kind := "content-flags", numericValue := none
        severity := some Severity.critical })
  , ("domainAge",
      { kind := "domain-age", numericValue := some 20, severity := none }) ]

/-- The empty job form. -/
def emptyJobForm : JobFormData :=
  { job_url := "", job_description := "", company_name := ""
    salary := "", recruiter_email := "" }

/-- The idle job-analyzer component state before any interaction. -/
def idleJobState : JobState :=
  { analyzing := false, result := none, error := none
    analysisSteps := [], hasScrolledToResults := false }

/-- A fully filled comment form. -/
def filledCommentForm : CommentFormData :=
  { user_name := "Ana", rating := 5, experience := "positive"
    comment := "Fast support and real payouts.", was_scammed := false }

/-! ## Helper lemmas -/

/-- Every rating update lands on one of the five star values. -/
theorem ratingStep_mem (r : Nat) (e : RatingEvent) : ratingStep r e ∈ ratingStars := by
  cases e with
  | press i => exact List.get_mem ratingStars i.1 i.2
  | reset =>
      show initialRating ∈ ratingStars
      decide

/-- Folding rating updates preserves membership in the star values. -/
theorem foldl_ratingStep_mem (events : List RatingEvent) (r : Nat)
    (hr : r ∈ ratingStars) : events.foldl ratingStep r ∈ ratingStars := by
  induction events generalizing r with
  | nil => exact hr
  | cons e es ih => exact ih (ratingStep r e) (ratingStep_mem r e)

/-- Every testimonial-index update lands strictly below the number of
testimonials. -/
theorem testimonialStep_lt (idx : Nat) (e : TestimonialEvent) :
    testimonialStep idx e < testimonials.length := by
  cases e with
  | tick => exact Nat.mod_lt _ (by decide)
  | dotClick i => exact i.2

/-- Folding testimonial-index updates preserves the in-range invariant. -/
theorem foldl_testimonialStep_lt (events : List TestimonialEvent) (idx : Nat)
    (hidx : idx < testimonials.length) :
    events.foldl testimonialStep idx < testimonials.length := by
  induction events generalizing idx with
  | nil => exact hidx
  | cons e es ih => exact ih (testimonialStep idx e) (testimonialStep_lt idx e)

/-! ## Claims -/

/-- C1: getScoreColor returns the green (most legitimate) band exactly when
the score is at least 70, the yellow (middle) band exactly when the score is
at least 40 and below 70, and the red (worst) band exactly when the score is
below 40 — the fixed thresholds documented by the specification, identical
in App.tsx and JobAnalyzer.tsx. -/
theorem getScoreColor_band_thresholds (s : Int) :
    (getScoreColor s = "from-emerald-500 to-green-600" ↔ 70 ≤ s) ∧
    (getScoreColor s = "from-yellow-500 to-orange-500" ↔ 40 ≤ s ∧ s < 70) ∧
    (getScoreColor s = "from-red-500 to-rose-600" ↔ s < 40) := by
  unfold getScoreColor
  split_ifs with h1 h2
  · exact ⟨⟨fun _ => h1, fun _ => rfl⟩,
      ⟨fun h => absurd h (by decide), fun h => absurd h1 (by omega)⟩,
      ⟨fun h => absurd h (by decide), fun h => absurd h1 (by omega)⟩⟩
  · exact ⟨⟨fun h => absurd h (by decide), fun h => absurd h h1⟩,
      ⟨fun _ => ⟨h2, by omega⟩, fun _ => rfl⟩,
      ⟨fun h => absurd h (by decide), fun h => absurd h2 (by omega)⟩⟩
  · exact ⟨⟨fun h => absurd h (by decide), fun h => absurd h h1⟩,
      ⟨fun h => absurd h (by decide), fun h => absurd h.1 h2⟩,
      ⟨fun _ => by omega, fun _ => rfl⟩⟩

/-- C2 counterexample: for the unauthenticated viewer (user is null) the
render of a concrete result still contains the non-empty findings list and
the AI analysis text, so the gated fields are not absent from what an
unauthenticated viewer receives. -/
theorem unauthenticated_receives_gated_fields :
    (renderResults none gatedSample).findingsShown ≠ [] ∧
    (renderResults none gatedSample).aiAnalysisShown ≠ none := by
  decide

/-- C2 (amended): for every result and every viewer, the top-level score,
verdict and target identifier are always rendered, and the sign-in overlay
is rendered exactly when the viewer is unauthenticated; but the gated
sections (findings, AI analysis) are rendered regardless of authentication —
the gating is cosmetic and overlay-based, so an unauthenticated viewer still
receives the gated fields underneath the overlay rather than not at all. -/
theorem gating_is_overlay_only (user : Option AuthUser) (r : AnalysisResult) :
    (renderResults user r).scoreShown = r.trustScore ∧
    (renderResults user r).verdictShown = r.verdict ∧
    (renderResults user r).urlShown = r.url ∧
    ((renderResults user r).overlayShown = true ↔ user = none) ∧
    (renderResults user r).findingsShown = r.findings ∧
    (renderResults user r).aiAnalysisShown = truthyString r.aiAnalysis := by
  refine ⟨rfl, rfl, rfl, ?_, rfl, rfl⟩
  cases user <;> simp [renderResults]

/-- C2 witness: at the concrete sample, the unauthenticated render shows the
overlay. -/
theorem gating_is_overlay_only_witness :
    (renderResults none gatedSample).overlayShown = true :=
  ((gating_is_overlay_only none gatedSample).2.2.2.1).mpr rfl

/-- C3: for every signal map containing at least one critical-severity
signal, the aggregated score is 0 and the verdict is the worst category,
regardless of all other signal values (the critical override takes
precedence over the weighted sum). -/
theorem critical_override (signals : List (String × SignalValue))
    (h : hasCritical signals = true) :
    aggregate signals = (0, worstVerdict) := by
  unfold aggregate aggregateScore
  rw [h]
  rfl

/-- C3 witness: a concrete signal map with a critical malware flag and an
otherwise favorable signal aggregates to score 0 and the worst verdict. -/
theorem critical_override_witness :
    hasCritical criticalSample = true ∧
    aggregate criticalSample = (0, worstVerdict) :=
  ⟨by decide, critical_override criticalSample (by decide)⟩

/-- C4: when analyzeJob is invoked with both job_url and job_description
empty, it rejects synchronously with the validation error naming the missing
fields, dispatches no HTTP request, and leaves result, analysisSteps and
analyzing unchanged. -/
theorem analyzeJob_rejects_empty_input (fd : JobFormData) (st : JobState)
    (hurl : fd.job_url = "") (hdesc : fd.job_description = "") :
    (analyzeJob fd st).2 = none ∧
    (analyzeJob fd st).1.error = some jobValidationError ∧
    (analyzeJob fd st).1.result = st.result ∧
    (analyzeJob fd st).1.analysisSteps = st.analysisSteps ∧
    (analyzeJob fd st).1.analyzing = st.analyzing := by
  simp [analyzeJob, hurl, hdesc]

/-- C4 witness: the empty job form against the idle state is rejected with
no request and no state change apart from the error message. -/
theorem analyzeJob_rejects_empty_input_witness :
    (analyzeJob emptyJobForm idleJobState).2 = none ∧
    (analyzeJob emptyJobForm idleJobState).1.error = some jobValidationError ∧
    (analyzeJob emptyJobForm idleJobState).1.result = idleJobState.result ∧
    (analyzeJob emptyJobForm idleJobState).1.analysisSteps = idleJobState.analysisSteps ∧
    (analyzeJob emptyJobForm idleJobState).1.analyzing = idleJobState.analyzing :=
  analyzeJob_rejects_empty_input emptyJobForm idleJobState rfl rfl

/-- C5: handleSubmit issues the POST request exactly when user_name and
comment are both non-empty, and returns without any request when either is
empty. -/
theorem handleSubmit_iff_nonempty (fd : CommentFormData) :
    (handleSubmit fd).isSome = true ↔ fd.user_name ≠ "" ∧ fd.comment ≠ "" := by
  unfold handleSubmit
  split_ifs with h
  · simp only [Option.isSome_none, Bool.false_eq_true, false_iff, not_and]
    intro hn hc
    rcases h with h | h
    · exact hn h
    · exact hc h
  · push_neg at h
    simp only [Option.isSome_some, true_iff]
    exact h

/-- C5 witness: a fully filled form is submitted. -/
theorem handleSubmit_iff_nonempty_witness :
    (handleSubmit filledCommentForm).isSome = true :=
  (handleSubmit_iff_nonempty filledCommentForm).mpr ⟨by decide, by decide⟩

/-- C6: the comment summary of the empty comment set has average_rating 0,
scam_reports 0, total_comments 0 and every experience bucket 0, and the
CommentsSection summary state starts with exactly these zero values before
any comments are loaded. -/
theorem empty_comment_summary_is_zero :
    commentSummary [] = initialStats ∧
    initialStats.total_comments = 0 ∧
    initialStats.average_rating = 0 ∧
    initialStats.scam_reports = 0 ∧
    initialStats.experience_breakdown =
      { positive := 0, neutral := 0, negative := 0 } :=
  ⟨rfl, rfl, rfl, rfl, rfl⟩

/-- C7: the comment-form rating is always an integer in [1, 5]: it starts at
5 and every update (a star-button press or the post-submit reset) keeps it
among the five star values, so every submitted comment carries a rating in
[1, 5]. -/
theorem rating_always_in_range (events : List RatingEvent) :
    ratingAfter events ∈ ratingStars ∧
    1 ≤ ratingAfter events ∧ ratingAfter events ≤ 5 := by
  have hmem : ratingAfter events ∈ ratingStars :=
    foldl_ratingStep_mem events initialRating (by decide)
  have hb : ∀ x ∈ ratingStars, 1 ≤ x ∧ x ≤ 5 := by decide
  exact ⟨hmem, (hb _ hmem).1, (hb _ hmem).2⟩

/-- C8: the disclosure gating is a pure, idempotent function of the viewer
state and the result: the disclosure filter applied twice yields the same
visible subset as applied once, and one render pass of the gated section
returns its state unchanged, so a second pass over that state yields the
identical page. -/
theorem disclosure_pure_and_idempotent :
    (∀ (a : Bool) (r : VisibleResult), disclose a (disclose a r) = disclose a r) ∧
    (∀ s : GateState, (renderGate s).2 = s ∧
      (renderGate (renderGate s).2).1 = (renderGate s).1) := by
  refine ⟨fun a r => ?_, fun s => ⟨rfl, rfl⟩⟩
  cases a <;> rfl

/-- C9: the formatCompact fallback is total on the non-negative integers the
stats hold — it always returns a string: the value divided by one million
with one decimal and an M suffix from one million upward, the value divided
by one thousand with one decimal and a K suffix from one thousand up to one
million, and the plain decimal string below one thousand. -/
theorem formatCompactFallback_branches (v : Nat) :
    (1000000 ≤ v → formatCompactFallback v = toFixed1 v 1000000 ++ "M") ∧
    (1000 ≤ v → v < 1000000 → formatCompactFallback v = toFixed1 v 1000 ++ "K") ∧
    (v < 1000 → formatCompactFallback v = toString v) := by
  unfold formatCompactFallback
  split_ifs with h1 h2
  · exact ⟨fun _ => rfl, fun _ h => absurd h1 (by omega),
      fun h => absurd h1 (by omega)⟩
  · exact ⟨fun h => absurd h (by omega), fun _ _ => rfl,
      fun h => absurd h2 (by omega)⟩
  · exact ⟨fun h => absurd h (by omega), fun h _ => absurd h (by omega),
      fun _ => rfl⟩

/-- C9 witness: each branch evaluated at a concrete value. -/
theorem formatCompactFallback_branches_witness :
    (1000000 ≤ 2500000 ∧
      formatCompactFallback 2500000 = toFixed1 2500000 1000000 ++ "M") ∧
    formatCompactFallback 120000 = toFixed1 120000 1000 ++ "K" ∧
    formatCompactFallback 999 = toString 999 :=
  ⟨⟨by omega, (formatCompactFallback_branches 2500000).1 (by omega)⟩,
   (formatCompactFallback_branches 120000).2.1 (by omega) (by omega),
   (formatCompactFallback_branches 999).2.2 (by omega)⟩

/-- C10: the currentTestimonial index is always in range: it starts at 0,
the timer maps it to its successor modulo the number of testimonials, and
the dot buttons only set indices produced by mapping over the testimonials
array, so indexing the testimonials array is always in bounds. -/
theorem testimonial_index_in_range (events : List TestimonialEvent) :
    testimonialIndexAfter events < testimonials.length :=
  foldl_testimonialStep_lt events 0 (by decide)

end PlatformAnalyzer
